import Mathlib

/-!
Shallow embedding of the upstream-routing and SOCKS5 tunnel-negotiation core
of the mitmproxy fork, together with theorems checking the natural-language
specification against it.

Namespace Socks5 embeds mitmproxy/proxy/layers/http/_socks5_upstream_proxy.py.
Namespace MultiUpstream embeds mitmproxy/addons/multi_upstream.py.

Bytes are modelled as natural numbers.  A Python function that can raise an
uncaught exception is modelled as an Except String value whose error carries
the exception name; a normal return of the handshake handlers is the ok case.
-/

/-- Split a character list at every occurrence of one separator character,
with the same semantics as splitting a string on a one-character separator. -/
def splitOnChar (sep : Char) : List Char → List Char → List (List Char)
  | [], acc => [acc.reverse]
  | c :: t, acc =>
    if c = sep then acc.reverse :: splitOnChar sep t []
    else splitOnChar sep t (c :: acc)

/-- Split a character list at every non-overlapping occurrence of a double
colon, scanning left to right, with the same semantics as splitting a string
on the two-character separator. -/
def splitOnDoubleColon : List Char → List Char → List (List Char)
  | [], acc => [acc.reverse]
  | ':' :: ':' :: t, acc => acc.reverse :: splitOnDoubleColon t []
  | c :: t, acc => splitOnDoubleColon t (c :: acc)

namespace Socks5

/-- Protocol constants, named as in the source module. -/
def SOCKS5_VERSION : Nat := 5

def SOCKS5_METHOD_NO_AUTHENTICATION_REQUIRED : Nat := 0

def SOCKS5_METHOD_USER_PASSWORD_AUTHENTICATION : Nat := 2

def SOCKS5_METHOD_NO_ACCEPTABLE_METHODS : Nat := 255

def SOCKS5_CMD_CONNECT : Nat := 1

def SOCKS5_ATYP_IPV4_ADDRESS : Nat := 1

def SOCKS5_ATYP_DOMAINNAME : Nat := 3

def SOCKS5_ATYP_IPV6_ADDRESS : Nat := 4

def SOCKS5_REP_SUCCEEDED : Nat := 0

/-- Translation of get_socks5_error_message: the fixed reply-code table with a
catch-all for unknown codes. -/
def get_socks5_error_message (reply_code : Nat) : String :=
  if reply_code = 0 then "Succeeded"
  else if reply_code = 1 then "General failure"
  else if reply_code = 2 then "Connection not allowed"
  else if reply_code = 3 then "Network unreachable"
  else if reply_code = 4 then "Host unreachable"
  else if reply_code = 5 then "Connection refused"
  else if reply_code = 6 then "TTL expired"
  else if reply_code = 7 then "Command not supported"
  else if reply_code = 8 then "Address type not supported"
  else "Unknown error code: " ++ toString reply_code

/-- The mutable per-connection fields of Socks5UpstreamProxy: the receive
buffer, the state string, the configured credentials, and the tunnel target
(host, port) taken from self.conn.address. -/
structure S5Session where
  buf : List Nat
  state : String
  username : Option String
  password : Option String
  host : String
  port : Nat
deriving Repr, DecidableEq

/-- Result of one receive_handshake_data call: the (done, error) pair the
generator returns, the session afterwards, the bytes sent to the tunnel
connection, and the bytes forwarded to the upper layer via receive_data. -/
structure S5Result where
  done : Bool
  err : Option String
  sess : S5Session
  sent : List Nat
  fwd : List Nat
deriving Repr, DecidableEq

/-- Python truthiness of an optional string: None and the empty string are
falsy. -/
def truthy : Option String → Bool
  | none => false
  | some s => !(s == "")

/-- UTF-8 encoding of a string as a byte list, using the core model of
String.toUTF8 (the same encoding str.encode with utf-8 produces). -/
def utf8Bytes (s : String) : List Nat :=
  (s.data.flatMap String.utf8EncodeChar).map UInt8.toNat

/-- One dotted-quad component as accepted by inet_pton with AF_INET: one to
three decimal digits, no leading zero except the component 0 itself, value at
most 255. -/
def parseIPv4Part (cs : List Char) : Option Nat :=
  if cs.isEmpty || 3 < cs.length || !cs.all Char.isDigit then none
  else if 1 < cs.length && cs.head? == some '0' then none
  else
    let v := cs.foldl (fun a c => a * 10 + (c.toNat - 48)) 0
    if v ≤ 255 then some v else none

/-- Model of socket.inet_pton with AF_INET: a strict dotted-quad literal,
returned as its four bytes; none models the OSError the source catches. -/
def parseIPv4 (s : String) : Option (List Nat) :=
  match (splitOnChar '.' s.data []).mapM parseIPv4Part with
  | some parts => if parts.length = 4 then some parts else none
  | none => none

/-- Value of one hexadecimal digit. -/
def hexDigitVal (c : Char) : Option Nat :=
  if c.isDigit then some (c.toNat - 48)
  else if 97 ≤ c.toNat && c.toNat ≤ 102 then some (c.toNat - 87)
  else if 65 ≤ c.toNat && c.toNat ≤ 70 then some (c.toNat - 55)
  else none

/-- One 16-bit group of an IPv6 literal: one to four hex digits. -/
def parseHexGroup (cs : List Char) : Option Nat :=
  if cs.isEmpty || 4 < cs.length then none
  else cs.foldl (fun acc c => acc.bind fun a => (hexDigitVal c).map fun v => a * 16 + v) (some 0)

/-- A colon-separated token list of an IPv6 literal as 16-bit groups; only the
final token may be an embedded dotted-quad IPv4 literal, contributing two
groups. -/
def parseGroupTokens : List (List Char) → Option (List Nat)
  | [] => some []
  | [t] =>
    if t.contains '.' then
      match parseIPv4 (String.mk t) with
      | some [a, b, c, d] => some [a * 256 + b, c * 256 + d]
      | _ => none
    else (parseHexGroup t).map (fun g => [g])
  | t :: rest =>
    match parseHexGroup t, parseGroupTokens rest with
    | some g, some gs => some (g :: gs)
    | _, _ => none

/-- Big-endian byte expansion of a list of 16-bit groups. -/
def groupsToBytes (gs : List Nat) : List Nat :=
  gs.foldr (fun g acc => g / 256 :: g % 256 :: acc) []

/-- Model of socket.inet_pton with AF_INET6: eight hex groups, or two group
runs joined by one double-colon standing for at least one zero group, with an
optional trailing embedded IPv4 literal; returned as 16 bytes. -/
def parseIPv6 (s : String) : Option (List Nat) :=
  match splitOnDoubleColon s.data [] with
  | [whole] =>
    let toks := splitOnChar ':' whole []
    match parseGroupTokens toks with
    | some gs => if gs.length = 8 then some (groupsToBytes gs) else none
    | none => none
  | [l, r] =>
    let ltoks := if l.isEmpty then [] else splitOnChar ':' l []
    let rtoks := if r.isEmpty then [] else splitOnChar ':' r []
    if ltoks.any (fun t => t.isEmpty || t.contains '.') || rtoks.any (fun t => t.isEmpty) then
      none
    else
      match parseGroupTokens ltoks, parseGroupTokens rtoks with
      | some lg, some rg =>
        if lg.length + rg.length ≤ 7 then
          some (groupsToBytes (lg ++ List.replicate (8 - lg.length - rg.length) 0 ++ rg))
        else none
      | _, _ => none
  | _ => none

/-- Translation of send_authentication: auth-version byte, username length
byte, username bytes, password length byte, password bytes.  A length above
255 cannot be stored in a bytearray element, so Python raises ValueError;
that exception is the error case. -/
def send_authentication (username password : String) : Except String (List Nat) :=
  let ub := utf8Bytes username
  let pb := utf8Bytes password
  if 255 < ub.length || 255 < pb.length then .error "ValueError"
  else .ok ([1, ub.length] ++ ub ++ [pb.length] ++ pb)

/-- Translation of send_connect_request: version, connect command, reserved
zero, then the address encoding chosen by attempting an IPv4 literal parse,
then an IPv6 literal parse, then domain-name encoding, then the big-endian
port.  Error cases model the exceptions the corresponding Python calls raise:
a non-ASCII host (str.encode ascii), a domain longer than 255 bytes
(bytearray element range), a port above 65535 (struct.pack with format H). -/
def send_connect_request (host : String) (port : Nat) : Except String (List Nat) :=
  let addr : Except String (List Nat) :=
    match parseIPv4 host with
    | some ip => .ok (SOCKS5_ATYP_IPV4_ADDRESS :: ip)
    | none =>
      match parseIPv6 host with
      | some ip => .ok (SOCKS5_ATYP_IPV6_ADDRESS :: ip)
      | none =>
        if !(host.data.all fun c => c.toNat ≤ 127) then .error "UnicodeEncodeError"
        else if 255 < host.length then .error "ValueError"
        else .ok (SOCKS5_ATYP_DOMAINNAME :: host.length :: host.data.map Char.toNat)
  match addr with
  | .error e => .error e
  | .ok a =>
    if 65535 < port then .error "struct.error"
    else .ok ([SOCKS5_VERSION, SOCKS5_CMD_CONNECT, 0] ++ a ++ [port / 256, port % 256])

/-- Translation of handle_greeting, the state handler for the greet state.
The exact message texts follow the source with apostrophes spelled out. -/
def handle_greeting (s : S5Session) : Except String S5Result :=
  if s.buf.length < 2 then .ok ⟨false, none, s, [], []⟩
  else if s.buf.getD 0 0 ≠ SOCKS5_VERSION then
    .ok ⟨false, some ("Invalid SOCKS version. Expected 5, got " ++ toString (s.buf.getD 0 0)),
      s, [], []⟩
  else
    let method := s.buf.getD 1 0
    if method = SOCKS5_METHOD_NO_ACCEPTABLE_METHODS then
      .ok ⟨false, some "SOCKS5 server requires authentication, but we do not support it",
        s, [], []⟩
    else if method = SOCKS5_METHOD_USER_PASSWORD_AUTHENTICATION then
      if !truthy s.username || !truthy s.password then
        .ok ⟨false, some "SOCKS5 server requires authentication, but no credentials provided",
          s, [], []⟩
      else
        match send_authentication (s.username.getD "") (s.password.getD "") with
        | .error e => .error e
        | .ok msg => .ok ⟨false, none, { s with buf := s.buf.drop 2, state := "auth" }, msg, []⟩
    else if method = SOCKS5_METHOD_NO_AUTHENTICATION_REQUIRED then
      match send_connect_request s.host s.port with
      | .error e => .error e
      | .ok msg => .ok ⟨false, none, { s with buf := s.buf.drop 2, state := "connect" }, msg, []⟩
    else
      .ok ⟨false, some ("Unsupported SOCKS5 authentication method: " ++ toString method),
        s, [], []⟩

/-- Translation of handle_authentication, the state handler for the auth
state. -/
def handle_authentication (s : S5Session) : Except String S5Result :=
  if s.buf.length < 2 then .ok ⟨false, none, s, [], []⟩
  else if s.buf.getD 0 0 ≠ 1 then
    .ok ⟨false,
      some ("Invalid authentication subnegotiation version. Expected 0x01, got " ++
        toString (s.buf.getD 0 0)), s, [], []⟩
  else if s.buf.getD 1 0 ≠ 0 then
    .ok ⟨false,
      some ("SOCKS5 authentication failed with status: " ++ toString (s.buf.getD 1 0)),
      s, [], []⟩
  else
    match send_connect_request s.host s.port with
    | .error e => .error e
    | .ok msg => .ok ⟨false, none, { s with buf := s.buf.drop 2, state := "connect" }, msg, []⟩

/-- Shared tail of handle_connect_response once the address length is known:
compute the total response length, wait for the full message, then consume it
and forward every remaining buffered byte to the upper layer. -/
def connect_response_tail (s : S5Session) (addr_len : Nat) (is_domain : Bool) :
    Except String S5Result :=
  let total_len := 4 + 1 + addr_len + 2 + (if is_domain then 1 else 0)
  if s.buf.length < total_len then .ok ⟨false, none, s, [], []⟩
  else .ok ⟨true, none, { s with buf := [] }, [], s.buf.drop total_len⟩

/-- Translation of handle_connect_response, the state handler for the connect
state.  The source reads byte 1 as a command byte, byte 3 as the reply code
and byte 4 as the address type, and dereferences positions 4 and 5 without a
length guard; the two error cases model the IndexError Python raises there. -/
def handle_connect_response (s : S5Session) : Except String S5Result :=
  if s.buf.length < 4 then .ok ⟨false, none, s, [], []⟩
  else if s.buf.getD 0 0 ≠ SOCKS5_VERSION then
    .ok ⟨false,
      some ("Invalid SOCKS version in response. Expected 5, got " ++ toString (s.buf.getD 0 0)),
      s, [], []⟩
  else if s.buf.getD 1 0 ≠ SOCKS5_CMD_CONNECT then
    .ok ⟨false,
      some ("Unexpected SOCKS5 command in response. Expected 1, got " ++
        toString (s.buf.getD 1 0)), s, [], []⟩
  else if s.buf.getD 2 0 ≠ 0 then
    .ok ⟨false,
      some ("Invalid reserved byte in SOCKS5 response: " ++ toString (s.buf.getD 2 0)),
      s, [], []⟩
  else if s.buf.getD 3 0 ≠ SOCKS5_REP_SUCCEEDED then
    .ok ⟨false,
      some ("SOCKS5 proxy refused connection: " ++ get_socks5_error_message (s.buf.getD 3 0)),
      s, [], []⟩
  else
    match s.buf.get? 4 with
    | none => .error "IndexError"
    | some atyp =>
      if atyp = SOCKS5_ATYP_IPV4_ADDRESS then connect_response_tail s 4 false
      else if atyp = SOCKS5_ATYP_IPV6_ADDRESS then connect_response_tail s 16 false
      else if atyp = SOCKS5_ATYP_DOMAINNAME then
        if s.buf.length < 5 then .ok ⟨false, none, s, [], []⟩
        else
          match s.buf.get? 5 with
          | none => .error "IndexError"
          | some l => connect_response_tail s l true
      else
        .ok ⟨false,
          some ("Unsupported address type in SOCKS5 response: " ++ toString atyp), s, [], []⟩

/-- Translation of receive_handshake_data: append the delivered bytes to the
buffer, then dispatch on the state string. -/
def receive_handshake_data (s0 : S5Session) (data : List Nat) : Except String S5Result :=
  let s : S5Session := { s0 with buf := s0.buf ++ data }
  if s.state = "greet" then handle_greeting s
  else if s.state = "auth" then handle_authentication s
  else if s.state = "connect" then handle_connect_response s
  else .ok ⟨false, some ("Unknown SOCKS5 state: " ++ s.state), s, [], []⟩

/-- Translation of start_handshake: the greeting advertises both methods when
credentials are configured and only no-authentication otherwise. -/
def start_handshake (s : S5Session) : List Nat :=
  if truthy s.username && truthy s.password then
    [SOCKS5_VERSION, 2, SOCKS5_METHOD_NO_AUTHENTICATION_REQUIRED,
      SOCKS5_METHOD_USER_PASSWORD_AUTHENTICATION]
  else
    [SOCKS5_VERSION, 1, SOCKS5_METHOD_NO_AUTHENTICATION_REQUIRED]

end Socks5

namespace MultiUpstream

/-- Translation of the ProxyRule dataclass.  The value field is unused by the
rule matcher and is kept as an optional boolean, its conventional payload. -/
structure ProxyRule where
  type : String
  pattern : Option String := none
  port : Option Nat := none
  value : Option Bool := none
deriving Repr, DecidableEq

/-- Translation of the ProxyConfig dataclass. -/
structure ProxyConfig where
  name : String
  url : String
  weight : Nat := 1
  rules : List ProxyRule := []
  username : Option String := none
  password : Option String := none
deriving Repr, DecidableEq

/-- The flow attributes the addon reads: request pretty_host and host (absent
or non-string attributes are none), request port (absent on non-TCP flows is
none), the websocket flag, and the client address host part. -/
structure Flow where
  pretty_host : Option String
  host : Option String
  port : Option Nat
  websocket : Bool
  client_address : String
deriving Repr, DecidableEq

/-- The mutable fields of MultiUpstreamAddon; the session-affinity dictionary
is an association list with the usual first-match lookup. -/
structure AddonState where
  proxy_configs : List ProxyConfig
  default_proxy : Option ProxyConfig
  config_loaded : Bool
  session_affinity : List (String × ProxyConfig)
deriving Repr, DecidableEq

/-- Dictionary lookup on the affinity map. -/
def affinityLookup (k : String) : List (String × ProxyConfig) → Option ProxyConfig
  | [] => none
  | (k2, v) :: t => if k2 = k then some v else affinityLookup k t

/-- Dictionary key deletion on the affinity map. -/
def affinityErase (k : String) (m : List (String × ProxyConfig)) :
    List (String × ProxyConfig) :=
  m.filter (fun kv => !(kv.1 == k))

/-- Dictionary key insertion or replacement on the affinity map. -/
def affinityInsert (k : String) (v : ProxyConfig) (m : List (String × ProxyConfig)) :
    List (String × ProxyConfig) :=
  (k, v) :: affinityErase k m

/-- Drop the first occurrence of the needle from the haystack and return the
remaining suffix, or none when the needle does not occur; a needle of zero
length matches at the start.  This is the search step of an unanchored
substring regular-expression search. -/
def findSub : List Char → List Char → Option (List Char)
  | hay, needle =>
    if needle.isPrefixOf hay then some (hay.drop needle.length)
    else
      match hay with
      | [] => none
      | _ :: t => findSub t needle

/-- Match wildcard segments in order, each anywhere at or after the previous
match end, mirroring a search for seg0 followed by dot-star followed by seg1
and so on. -/
def segsSearch : List (List Char) → List Char → Bool
  | [], _ => true
  | seg :: rest, hay =>
    match findSub hay seg with
    | some remaining => segsSearch rest remaining
    | none => false

/-- Model of re.search over the compiled host pattern: the pattern is
re.escape of the configured string with every escaped star turned into
dot-star, searched unanchored, so all characters are literal except the star
wildcard.  Hostnames contain no newline, so the newline exclusion of the
regular-expression dot is immaterial. -/
def wildcardSearch (pattern host : String) : Bool :=
  segsSearch (splitOnChar '*' pattern.data []) host.data

/-- The host value the matcher reads: getattr pretty_host or getattr host,
where the Python or-operator skips a missing or empty pretty_host. -/
def flow_host (f : Flow) : Option String :=
  match f.pretty_host with
  | some s => if s ≠ "" then some s else f.host
  | none => f.host

/-- Translation of matches_rule.  A host_pattern rule with a missing or empty
pattern, and a port rule with a missing or zero port value, fall through to
the final return False, because the source guards each with Python
truthiness tests. -/
def matches_rule (f : Flow) (rule : ProxyRule) : Bool :=
  if rule.type = "host_pattern" then
    match rule.pattern with
    | some p =>
      if p = "" then false
      else
        match flow_host f with
        | some h => wildcardSearch p h
        | none => false
    | none => false
  else if rule.type = "port" then
    match rule.port with
    | some n => if n = 0 then false else f.port == some n
    | none => false
  else if rule.type = "default" then true
  else false

/-- Translation of proxy_matches_rules: logical OR over the rule list. -/
def proxy_matches_rules (p : ProxyConfig) (f : Flow) : Bool :=
  p.rules.any (fun r => matches_rule f r)

/-- Translation of get_connection_id.  The source reads the attributes
directly; the identity is used only as an opaque cache key. -/
def get_connection_id (f : Flow) : String :=
  if f.websocket then f.client_address ++ ":" ++ f.pretty_host.getD ""
  else
    f.client_address ++ ":" ++ f.pretty_host.getD "" ++ ":" ++ toString (f.port.getD 0)

/-- Inhabitant used only as the default of a guarded list index. -/
def dummyProxy : ProxyConfig :=
  ⟨"", "", 1, [], none, none⟩

/-- Cumulative-weight index choice: the random draw r is compared against the
running sum of the weights, picking the first index whose cumulative weight
exceeds it and clamping at the last index, exactly the bisect step inside
random.choices. -/
def chooseIdx : List ℚ → ℚ → Nat
  | [], _ => 0
  | [_], _ => 0
  | w :: v :: t, r => if r < w then 0 else chooseIdx (v :: t) (r - w) + 1

/-- Total weight of a candidate list as a rational. -/
def totalW (l : List ProxyConfig) : ℚ :=
  (l.map fun p => (p.weight : ℚ)).sum

/-- The normalized weight list the source passes to random.choices: each
weight divided by the total over the matching subset. -/
def weightFracs (l : List ProxyConfig) : List ℚ :=
  l.map (fun p => (p.weight : ℚ) / totalW l)

/-- Running sum of the first i normalized weights. -/
def prefixW (l : List ProxyConfig) (i : Nat) : ℚ :=
  ((weightFracs l).take i).sum

/-- The rule-evaluation and weighted-choice tail of select_proxy, entered
when no valid affinity entry exists.  The draw r in the unit interval models
the single call to the random source. -/
def selection_core (st : AddonState) (f : Flow) (r : ℚ) (cid : String) :
    Option ProxyConfig × AddonState :=
  let matching := st.proxy_configs.filter (fun p => proxy_matches_rules p f)
  if matching.isEmpty then
    match st.default_proxy with
    | some d =>
      (some d, { st with session_affinity := affinityInsert cid d st.session_affinity })
    | none => (none, st)
  else
    let selected :=
      if 1 < matching.length then
        matching.getD (chooseIdx (weightFracs matching) r) dummyProxy
      else matching.headD dummyProxy
    (some selected,
      { st with session_affinity := affinityInsert cid selected st.session_affinity })

/-- Translation of select_proxy: gate on the loaded flag, then the affinity
lookup with re-validation and eviction, then rule evaluation with the
weighted random choice, then caching of the selection. -/
def select_proxy (st : AddonState) (f : Flow) (r : ℚ) : Option ProxyConfig × AddonState :=
  if !st.config_loaded then (none, st)
  else
    match affinityLookup (get_connection_id f) st.session_affinity with
    | some cached =>
      if proxy_matches_rules cached f then (some cached, st)
      else
        selection_core
          { st with
            session_affinity := affinityErase (get_connection_id f) st.session_affinity }
          f r (get_connection_id f)
    | none => selection_core st f r (get_connection_id f)

/-- One rule entry of a parsed configuration file. -/
structure RuleData where
  type : String
  pattern : Option String := none
  port : Option Nat := none
  value : Option Bool := none
deriving Repr, DecidableEq

/-- One proxy entry of a parsed configuration file; weight none models an
absent key, defaulted to 1. -/
structure ProxyData where
  name : String
  url : String
  weight : Option Nat := none
  rules : List RuleData := []
  username : Option String := none
  password : Option String := none
deriving Repr, DecidableEq

/-- A parsed configuration mapping: proxies is none when the file has no
proxies key. -/
structure ParsedConfig where
  proxies : Option (List ProxyData)
deriving Repr, DecidableEq

/-- Translation of the body of load_configuration_from_dir from the point
where the file has been found and parsed: the candidate list and the default
are cleared first, a missing proxies key logs an error and returns, and
otherwise every entry is appended as a candidate or installed as the default
(last default wins) before the loaded flag is set.  The loaded flag is not
touched on the failure path and the affinity dictionary is never touched. -/
def load_configuration (st : AddonState) (config : ParsedConfig) : AddonState :=
  let st1 := { st with proxy_configs := [], default_proxy := none }
  match config.proxies with
  | none => st1
  | some entries =>
    let st2 := entries.foldl
      (fun acc pd =>
        let rules := pd.rules.map (fun rd => ProxyRule.mk rd.type rd.pattern rd.port rd.value)
        let pc : ProxyConfig :=
          ⟨pd.name, pd.url, pd.weight.getD 1, rules, pd.username, pd.password⟩
        if rules.any (fun ru => ru.type = "default") then { acc with default_proxy := some pc }
        else { acc with proxy_configs := acc.proxy_configs ++ [pc] })
      st1
    { st2 with config_loaded := true }

end MultiUpstream

namespace MultiUpstream

/-- A wildcard host rule for the example domain. -/
def exampleRule : ProxyRule :=
  ⟨"host_pattern", some "*.example.com", none, none⟩

/-- The unconditional default rule. -/
def defaultRule : ProxyRule :=
  ⟨"default", none, none, some true⟩

/-- A weight-1 candidate matching the example domain. -/
def proxyA : ProxyConfig :=
  ⟨"proxy-a", "http://a.internal:8080", 1, [exampleRule], none, none⟩

/-- A weight-3 candidate matching the example domain. -/
def proxyB : ProxyConfig :=
  ⟨"proxy-b", "http://b.internal:8080", 3, [exampleRule], none, none⟩

/-- A default proxy carrying the default rule. -/
def proxyC : ProxyConfig :=
  ⟨"proxy-c", "http://c.internal:8080", 1, [defaultRule], none, none⟩

/-- A flow to the example domain on port 443. -/
def exampleFlow : Flow :=
  ⟨some "api.example.com", some "api.example.com", some 443, false, "10.0.0.1"⟩

/-- A loaded registry with the two weighted candidates, the default, and an
empty affinity cache. -/
def weightedState : AddonState :=
  ⟨[proxyA, proxyB], some proxyC, true, []⟩

/-- The same loaded registry with an affinity entry binding the example flow
to the default proxy. -/
def cachedState : AddonState :=
  ⟨[proxyA, proxyB], some proxyC, true, [(get_connection_id exampleFlow, proxyC)]⟩

/-- A port rule whose configured value is zero. -/
def portZeroRule : ProxyRule :=
  ⟨"port", none, some 0, none⟩

/-- A flow whose target port is zero. -/
def portZeroFlow : Flow :=
  ⟨some "h.example", some "h.example", some 0, false, "10.0.0.2"⟩

/-- A port rule for port 443. -/
def port443Rule : ProxyRule :=
  ⟨"port", none, some 443, none⟩

end MultiUpstream

namespace Socks5

/-- A session awaiting the greeting response with no credentials. -/
def greetSession : S5Session :=
  ⟨[], "greet", none, none, "example.com", 80⟩

/-- A session awaiting the connect response. -/
def connectSession : S5Session :=
  ⟨[], "connect", none, none, "example.com", 80⟩

/-- A session whose configured username is 256 bytes long. -/
def longUserSession : S5Session :=
  ⟨[], "greet", some (String.mk (List.replicate 256 'a')), some "p", "example.com", 80⟩

/-- The result of delivering a wrong-version greeting response to
greetSession. -/
def wrongVersionResult : S5Result :=
  ⟨false, some "Invalid SOCKS version. Expected 5, got 4",
    ⟨[4, 0], "greet", none, none, "example.com", 80⟩, [], []⟩

end Socks5

namespace Socks5

/-- Every result of the shared connect-response tail carries no error: it is
either need-more-data or completion. -/
theorem connect_response_tail_err (s : S5Session) (n : Nat) (b : Bool) (r : S5Result)
    (h : connect_response_tail s n b = .ok r) : r.err = none := by
  simp only [connect_response_tail] at h
  repeat' split at h
  all_goals (injection h with h2; subst h2; rfl)

/-- When the greet-state handler returns an error, the session is exactly the
one it was given and nothing was emitted. -/
theorem handle_greeting_violation (s : S5Session) (r : S5Result)
    (h : handle_greeting s = .ok r) (he : r.err.isSome) :
    r.sess = s ∧ r.sent = [] ∧ r.fwd = [] := by
  simp only [handle_greeting] at h
  repeat' split at h
  all_goals first
    | exact (Except.noConfusion h)
    | (injection h with h2; subst h2; simp_all)

/-- When the auth-state handler returns an error, the session is exactly the
one it was given and nothing was emitted. -/
theorem handle_authentication_violation (s : S5Session) (r : S5Result)
    (h : handle_authentication s = .ok r) (he : r.err.isSome) :
    r.sess = s ∧ r.sent = [] ∧ r.fwd = [] := by
  simp only [handle_authentication] at h
  repeat' split at h
  all_goals first
    | exact (Except.noConfusion h)
    | (injection h with h2; subst h2; simp_all)

set_option maxHeartbeats 1000000 in
/-- When the connect-state handler returns an error, the session is exactly
the one it was given and nothing was emitted. -/
theorem handle_connect_violation (s : S5Session) (r : S5Result)
    (h : handle_connect_response s = .ok r) (he : r.err.isSome) :
    r.sess = s ∧ r.sent = [] ∧ r.fwd = [] := by
  simp only [handle_connect_response] at h
  repeat' split at h
  all_goals first
    | exact (Except.noConfusion h)
    | (injection h with h2; subst h2; simp_all)
    | (exfalso; have h3 := connect_response_tail_err _ _ _ _ h; simp_all)

/-- C10: whenever receive_handshake_data reports a protocol violation (a
non-none error, which the handlers only ever pair with done equal to false),
the state field is unchanged and the buffer holds the old bytes followed by
the newly delivered input: a failure consumes nothing, and nothing is sent or
forwarded. -/
theorem socks5_violation_preserves_state (s : S5Session) (data : List Nat) (r : S5Result)
    (h : receive_handshake_data s data = .ok r) (he : r.err.isSome) :
    r.sess.state = s.state ∧ r.sess.buf = s.buf ++ data ∧ r.sent = [] ∧ r.fwd = [] := by
  simp only [receive_handshake_data] at h
  split at h
  · have h2 := handle_greeting_violation _ _ h he
    rw [h2.1]
    simp_all
  · split at h
    · have h2 := handle_authentication_violation _ _ h he
      rw [h2.1]
      simp_all
    · split at h
      · have h2 := handle_connect_violation _ _ h he
        rw [h2.1]
        simp_all
      · injection h with h2
        subst h2
        simp_all

/-- Witness for C10: a wrong-version greeting response produces an error
result that keeps the greet state, keeps the delivered bytes buffered, and
emits nothing. -/
theorem socks5_violation_preserves_state_witness :
    wrongVersionResult.sess.state = greetSession.state ∧
    wrongVersionResult.sess.buf = greetSession.buf ++ [4, 0] ∧
    wrongVersionResult.sent = [] ∧ wrongVersionResult.fwd = [] :=
  socks5_violation_preserves_state greetSession [4, 0] wrongVersionResult (by rfl) (by rfl)

/-- C1: the claimed response framing fails on the code.  A success reply
framed exactly as the claim states (version, reply code, reserved byte,
address-type byte, four IPv4 address bytes, two big-endian port bytes, with
reply code zero) is rejected with a protocol error instead of being consumed:
the handler reads byte 1 as a command byte and byte 3 as the reply code, so
it expects a response one byte longer than the claimed framing. -/
theorem socks5_claimed_framing_rejected :
    receive_handshake_data connectSession [5, 0, 0, 1, 10, 0, 0, 5, 1, 187] =
      .ok ⟨false, some "Unexpected SOCKS5 command in response. Expected 1, got 0",
        ⟨[5, 0, 0, 1, 10, 0, 0, 5, 1, 187], "connect", none, none, "example.com", 80⟩,
        [], []⟩ := by
  rfl

/-- C2: the short-buffer safety claim fails on the code.  In the connect
state with exactly four bytes buffered, fewer than any complete response, the
handler dereferences buffer position 4 without a length guard and raises
IndexError instead of returning need-more-data. -/
theorem socks5_short_buffer_index_error :
    receive_handshake_data connectSession [5, 1, 0, 0] = .error "IndexError" := by
  rfl

set_option maxRecDepth 4000 in
/-- C7: the claimed rejection of oversized credentials fails on the code.
With a 256-byte username configured, a greeting response selecting
username/password authentication makes the handler raise ValueError while
packing the length byte of the subnegotiation message; nothing rejects the
credentials before the AUTHENTICATING state. -/
theorem socks5_oversized_username_value_error :
    receive_handshake_data longUserSession [5, 2] = .error "ValueError" := by
  rfl

/-- C5: feeding the greeting response as two one-byte deliveries yields the
same final state and the same emitted bytes as a single two-byte delivery:
the first delivery consumes nothing and emits nothing, and the second call
continues from the very buffer contents the single delivery sees. -/
theorem socks5_greeting_split_delivery (s : S5Session) (b0 b1 : Nat)
    (hstate : s.state = "greet") (hbuf : s.buf = []) :
    receive_handshake_data s [b0] =
      .ok ⟨false, none, { s with buf := [b0] }, [], []⟩ ∧
    receive_handshake_data { s with buf := [b0] } [b1] =
      receive_handshake_data s [b0, b1] := by
  obtain ⟨buf, st, u, p, h, pt⟩ := s
  simp only [S5Session.mk.injEq] at hstate hbuf ⊢
  subst hstate hbuf
  constructor
  · simp [receive_handshake_data, handle_greeting]
  · simp [receive_handshake_data]

/-- Witness for C5: splitting the no-authentication greeting response to a
credential-free session. -/
theorem socks5_greeting_split_delivery_witness :
    receive_handshake_data greetSession [5] =
      .ok ⟨false, none, { greetSession with buf := [5] }, [], []⟩ ∧
    receive_handshake_data { greetSession with buf := [5] } [0] =
      receive_handshake_data greetSession [5, 0] :=
  socks5_greeting_split_delivery greetSession 5 0 (by rfl) (by rfl)

/-- Every address inet_pton accepts for the IPv4 family has exactly four
bytes. -/
theorem parseIPv4_length (host : String) (ip : List Nat) (h : parseIPv4 host = some ip) :
    ip.length = 4 := by
  unfold parseIPv4 at h
  split at h
  · split at h
    · injection h with h2; subst h2; assumption
    · exact (Option.noConfusion h)
  · exact (Option.noConfusion h)

/-- C6: the connect request is framed as version byte, connect command byte,
reserved zero byte, then the address encoding chosen by first attempting an
IPv4 literal parse (type 1 with exactly four address bytes), then an IPv6
literal parse (type 4), then domain-name encoding (type 3, one length byte
plus the ASCII bytes), followed by the two big-endian target port bytes; in
particular target 10.0.0.5 port 443 produces IPv4 framing with four address
bytes and port bytes 1 then 187. -/
theorem socks5_connect_request_framing (host : String) (port : Nat) (hport : port ≤ 65535) :
    (∀ ip, parseIPv4 host = some ip →
      ip.length = 4 ∧
      send_connect_request host port = .ok ([5, 1, 0, 1] ++ ip ++ [port / 256, port % 256])) ∧
    (∀ ip, parseIPv4 host = none → parseIPv6 host = some ip →
      send_connect_request host port = .ok ([5, 1, 0, 4] ++ ip ++ [port / 256, port % 256])) ∧
    (parseIPv4 host = none → parseIPv6 host = none →
      (host.data.all fun c => c.toNat ≤ 127) = true → host.length ≤ 255 →
      send_connect_request host port =
        .ok ([5, 1, 0, 3, host.length] ++ host.data.map Char.toNat ++
          [port / 256, port % 256])) ∧
    send_connect_request "10.0.0.5" 443 = .ok [5, 1, 0, 1, 10, 0, 0, 5, 1, 187] := by
  have hp : ¬ 65535 < port := by omega
  refine ⟨?_, ?_, ?_, by rfl⟩
  · intro ip h4
    refine ⟨parseIPv4_length host ip h4, ?_⟩
    simp [send_connect_request, h4, hp, SOCKS5_VERSION, SOCKS5_CMD_CONNECT,
      SOCKS5_ATYP_IPV4_ADDRESS]
  · intro ip h4 h6
    simp [send_connect_request, h4, h6, hp, SOCKS5_VERSION, SOCKS5_CMD_CONNECT,
      SOCKS5_ATYP_IPV6_ADDRESS]
  · intro h4 h6 hascii hlen
    have hl : ¬ 255 < host.length := by omega
    simp [send_connect_request, h4, h6, hascii, hl, hp, SOCKS5_VERSION, SOCKS5_CMD_CONNECT,
      SOCKS5_ATYP_DOMAINNAME]

/-- Witness for C6: the concrete IPv4 target of the claim. -/
theorem socks5_connect_request_framing_witness :
    send_connect_request "10.0.0.5" 443 = .ok [5, 1, 0, 1, 10, 0, 0, 5, 1, 187] :=
  (socks5_connect_request_framing "10.0.0.5" 443 (by omega)).2.2.2

end Socks5

namespace MultiUpstream

/-- The cumulative choice never leaves the weight list. -/
theorem chooseIdx_lt_length (ws : List ℚ) (r : ℚ) (h : ws ≠ []) :
    chooseIdx ws r < ws.length := by
  induction ws generalizing r with
  | nil => exact absurd rfl h
  | cons w t ih =>
    cases t with
    | nil => simp [chooseIdx]
    | cons v u =>
      simp only [chooseIdx]
      split
      · simp
      · have h2 := ih (r - w) (by simp)
        simp only [List.length_cons] at h2 ⊢
        omega

/-- With positive weights and a draw inside the total, the cumulative choice
picks index i exactly when the draw falls in the half-open interval between
the prefix sums around i. -/
theorem chooseIdx_eq_iff (ws : List ℚ) (hpos : ∀ w ∈ ws, 0 < w) (r : ℚ)
    (hr0 : 0 ≤ r) (hrs : r < ws.sum) (i : Nat) (hi : i < ws.length) :
    chooseIdx ws r = i ↔ ((ws.take i).sum ≤ r ∧ r < (ws.take (i + 1)).sum) := by
  induction ws generalizing r i with
  | nil => simp at hi
  | cons w t ih =>
    cases t with
    | nil =>
      have hi0 : i = 0 := Nat.lt_one_iff.mp (by simpa using hi)
      subst hi0
      rw [List.sum_cons, List.sum_nil, add_zero] at hrs
      simp only [chooseIdx, List.take_zero, List.take_succ_cons, List.sum_nil, List.sum_cons,
        add_zero]
      exact iff_of_true (by simp) ⟨hr0, hrs⟩
    | cons v u =>
      cases i with
      | zero =>
        simp only [chooseIdx, List.take_zero, List.take_succ_cons, List.sum_nil, List.sum_cons,
          add_zero]
        split
        · rename_i hrw
          exact iff_of_true (by simp) ⟨hr0, hrw⟩
        · rename_i hrw
          push_neg at hrw
          constructor
          · intro h0; omega
          · rintro ⟨-, hlt⟩
            exact absurd hlt (not_lt.mpr hrw)
      | succ j =>
        have hjlen : j < (v :: u).length := by simpa using hi
        have hposT : ∀ x ∈ v :: u, 0 < x := fun x hx => hpos x (List.mem_cons_of_mem w hx)
        have hw : 0 < w := hpos w (List.mem_cons_self w _)
        have hrs2 : r - w < (v :: u).sum := by
          rw [List.sum_cons] at hrs
          linarith
        simp only [chooseIdx, List.take_succ_cons, List.sum_cons]
        split
        · rename_i hrw
          constructor
          · intro h0; omega
          · rintro ⟨hge, -⟩
            exfalso
            have hnn : 0 ≤ ((v :: u).take j).sum :=
              List.sum_nonneg (fun x hx => le_of_lt (hposT x (List.take_subset _ _ hx)))
            linarith
        · rename_i hrw
          push_neg at hrw
          have h2 := ih hposT (r - w) (by linarith) hrs2 j hjlen
          simp only [List.take_succ_cons, List.sum_cons] at h2
          constructor
          · intro heq
            have hj : chooseIdx (v :: u) (r - w) = j := by omega
            have h3 := h2.mp hj
            exact ⟨by linarith [h3.1], by linarith [h3.2]⟩
          · rintro ⟨hge, hlt⟩
            have h3 := h2.mpr ⟨by linarith, by linarith⟩
            omega

/-- A nonempty candidate list with positive weights has positive total. -/
theorem totalW_pos (l : List ProxyConfig) (hne : l ≠ [])
    (hpos : ∀ p ∈ l, 0 < p.weight) : 0 < totalW l := by
  apply List.sum_pos
  · intro x hx
    obtain ⟨p, hp, hxp⟩ := List.mem_map.mp hx
    subst hxp
    exact_mod_cast hpos p hp
  · simpa using hne

/-- The normalized weights sum to one. -/
theorem weightFracs_sum (l : List ProxyConfig) (h : 0 < totalW l) :
    (weightFracs l).sum = 1 := by
  unfold weightFracs
  have hmul : (l.map fun p => (p.weight : ℚ) / totalW l) =
      (l.map fun p => (p.weight : ℚ) * (totalW l)⁻¹) := by
    simp [div_eq_mul_inv]
  rw [hmul, List.sum_map_mul_right, ← div_eq_mul_inv]
  rw [div_eq_one_iff_eq (ne_of_gt h)]
  rfl

/-- Each normalized weight of a positive-weight candidate is positive. -/
theorem weightFracs_pos (l : List ProxyConfig) (h : 0 < totalW l)
    (hpos : ∀ p ∈ l, 0 < p.weight) :
    ∀ w ∈ weightFracs l, 0 < w := by
  intro w hw
  obtain ⟨p, hp, hwp⟩ := List.mem_map.mp hw
  subst hwp
  exact div_pos (by exact_mod_cast hpos p hp) h

/-- The width of the cumulative interval of index i is the weight of the
candidate at i divided by the total weight. -/
theorem prefixW_succ (l : List ProxyConfig) (i : Nat) (hi : i < l.length) :
    prefixW l (i + 1) - prefixW l i = ((l.getD i dummyProxy).weight : ℚ) / totalW l := by
  unfold prefixW
  have hlen : i < (weightFracs l).length := by simpa [weightFracs] using hi
  rw [List.sum_take_succ _ _ hlen]
  have hget : (weightFracs l)[i] = ((l.getD i dummyProxy).weight : ℚ) / totalW l := by
    simp [weightFracs, List.getD_eq_getElem?_getD, List.getElem?_eq_getElem hi]
  rw [hget]
  ring

/-- With the loaded flag set and no affinity entry for the flow, select_proxy
is its rule-evaluation tail. -/
theorem select_proxy_eq_core (st : AddonState) (f : Flow) (r : ℚ)
    (hload : st.config_loaded = true)
    (haff : affinityLookup (get_connection_id f) st.session_affinity = none) :
    select_proxy st f r = selection_core st f r (get_connection_id f) := by
  simp [select_proxy, hload, haff]

/-- With no matching candidate the selection is the configured default, which
covers the no-default case because both sides are then none. -/
theorem selection_core_empty (st : AddonState) (f : Flow) (r : ℚ) (cid : String)
    (hempty : st.proxy_configs.filter (fun p => proxy_matches_rules p f) = []) :
    (selection_core st f r cid).1 = st.default_proxy := by
  simp only [selection_core, hempty]
  cases hd : st.default_proxy <;> simp [hd]

/-- With exactly one matching candidate the selection is that candidate. -/
theorem selection_core_single (st : AddonState) (f : Flow) (r : ℚ) (cid : String)
    (p : ProxyConfig)
    (hone : st.proxy_configs.filter (fun p => proxy_matches_rules p f) = [p]) :
    (selection_core st f r cid).1 = some p := by
  simp [selection_core, hone]

/-- With two or more matching candidates the selection is the one at the
cumulative-choice index over the normalized weights of the matching subset. -/
theorem selection_core_weighted (st : AddonState) (f : Flow) (r : ℚ) (cid : String)
    (matching : List ProxyConfig)
    (hm : matching = st.proxy_configs.filter (fun p => proxy_matches_rules p f))
    (hlen : 2 ≤ matching.length) :
    (selection_core st f r cid).1 =
      some (matching.getD (chooseIdx (weightFracs matching) r) dummyProxy) := by
  subst hm
  have hne : (st.proxy_configs.filter (fun p => proxy_matches_rules p f)).isEmpty = false := by
    rcases hl : st.proxy_configs.filter (fun p => proxy_matches_rules p f) with _ | ⟨a, t⟩
    · rw [hl] at hlen
      simp at hlen
    · rfl
  simp only [selection_core, hne, Bool.false_eq_true, if_false]
  rw [if_pos (by omega)]

/-- C3: with the registry not loaded, select returns none; otherwise, with no
affinity entry for the flow, an empty matching set yields the configured
default (none when absent), a singleton matching set yields its element, and
a larger matching set yields the candidate indexed by the cumulative choice
over the weights normalized on the matching subset alone: for a draw uniform
on the unit interval, index i is chosen exactly on an interval of width equal
to the weight of candidate i divided by the sum of the matching weights. -/
theorem select_proxy_no_affinity_spec (st : AddonState) (f : Flow) (r : ℚ)
    (hr0 : 0 ≤ r) (hr1 : r < 1)
    (haff : affinityLookup (get_connection_id f) st.session_affinity = none) :
    (st.config_loaded = false → (select_proxy st f r).1 = none) ∧
    (st.config_loaded = true →
      ∀ matching, matching = st.proxy_configs.filter (fun p => proxy_matches_rules p f) →
        (matching = [] → (select_proxy st f r).1 = st.default_proxy) ∧
        (∀ p, matching = [p] → (select_proxy st f r).1 = some p) ∧
        (2 ≤ matching.length → (∀ p ∈ matching, 0 < p.weight) →
          (select_proxy st f r).1 =
            some (matching.getD (chooseIdx (weightFracs matching) r) dummyProxy) ∧
          chooseIdx (weightFracs matching) r < matching.length ∧
          (∀ i, i < matching.length →
            (chooseIdx (weightFracs matching) r = i ↔
              (prefixW matching i ≤ r ∧ r < prefixW matching (i + 1)))) ∧
          (∀ i, i < matching.length →
            prefixW matching (i + 1) - prefixW matching i =
              ((matching.getD i dummyProxy).weight : ℚ) / totalW matching))) := by
  constructor
  · intro hload
    simp [select_proxy, hload]
  · intro hload matching hm
    rw [select_proxy_eq_core st f r hload haff]
    have hne : 2 ≤ matching.length → matching ≠ [] := by
      intro h2 hnil
      rw [hnil] at h2
      simp at h2
    refine ⟨fun he => selection_core_empty st f r _ (hm ▸ he),
            fun p hp => selection_core_single st f r _ p (hp ▸ hm ▸ rfl),
            fun hlen hwpos => ?_⟩
    have htot : 0 < totalW matching := totalW_pos matching (hne hlen) hwpos
    have hfpos : ∀ w ∈ weightFracs matching, 0 < w := weightFracs_pos matching htot hwpos
    have hfsum : (weightFracs matching).sum = 1 := weightFracs_sum matching htot
    have hflen : (weightFracs matching).length = matching.length := by
      simp [weightFracs]
    have hfne : weightFracs matching ≠ [] := by
      intro hnil
      have := hne hlen
      simp [weightFracs] at hnil
      exact this hnil
    refine ⟨selection_core_weighted st f r _ matching hm hlen, ?_, ?_, ?_⟩
    · have := chooseIdx_lt_length (weightFracs matching) r hfne
      omega
    · intro i hi
      have := chooseIdx_eq_iff (weightFracs matching) hfpos r hr0 (by rw [hfsum]; exact hr1)
        i (by omega)
      simpa [prefixW] using this
    · intro i hi
      exact prefixW_succ matching i hi

/-- Witness for C3: with weights 1 and 3 over the two matching candidates and
a centered draw, selection picks the heavier candidate. -/
theorem select_proxy_no_affinity_spec_witness :
    (select_proxy weightedState exampleFlow (1/2)).1 = some proxyB := by
  have hfr : weightFracs [proxyA, proxyB] = [1/4, 3/4] := by
    norm_num [weightFracs, totalW, proxyA, proxyB]
  have hc : chooseIdx (weightFracs [proxyA, proxyB]) (1/2) = 1 := by
    rw [hfr]
    simp only [chooseIdx]
    rw [if_neg (by norm_num)]
  have h := (select_proxy_no_affinity_spec weightedState exampleFlow (1/2)
      (by norm_num) (by norm_num) (by rfl)).2 (by rfl) [proxyA, proxyB] (by rfl)
  have h2 := (h.2.2 (by decide) (by decide)).1
  rw [h2, hc]
  rfl

/-- Deleting a key removes it from lookup. -/
theorem affinityLookup_erase (k : String) (m : List (String × ProxyConfig)) :
    affinityLookup k (affinityErase k m) = none := by
  induction m with
  | nil => rfl
  | cons kv t ih =>
    obtain ⟨k2, v⟩ := kv
    by_cases h : k2 = k
    · have he : affinityErase k ((k2, v) :: t) = affinityErase k t := by
        simp [affinityErase, List.filter_cons, h]
      rw [he]
      exact ih
    · have he : affinityErase k ((k2, v) :: t) = (k2, v) :: affinityErase k t := by
        simp [affinityErase, List.filter_cons, h]
      rw [he]
      simp only [affinityLookup]
      rw [if_neg h]
      exact ih

/-- C4: when the connection identity is cached and the cached proxy still
matches its own rules, select returns exactly that proxy with the state
untouched, for every random draw, so repeated selections are idempotent
regardless of weights; when the cached proxy no longer matches, select
behaves exactly as a fresh selection on the state with the entry evicted. -/
theorem select_proxy_affinity_sticky (st : AddonState) (f : Flow) (r : ℚ) (p : ProxyConfig)
    (hload : st.config_loaded = true)
    (hcache : affinityLookup (get_connection_id f) st.session_affinity = some p) :
    (proxy_matches_rules p f = true →
      ∀ r2 : ℚ, select_proxy st f r2 = (some p, st)) ∧
    (proxy_matches_rules p f = false →
      select_proxy st f r =
        select_proxy
          { st with
            session_affinity := affinityErase (get_connection_id f) st.session_affinity }
          f r) := by
  constructor
  · intro hm r2
    simp [select_proxy, hload, hcache, hm]
  · intro hm
    simp [select_proxy, hload, hcache, hm, affinityLookup_erase]

/-- Witness for C4: the cached default proxy is returned unchanged for an
arbitrary draw. -/
theorem select_proxy_affinity_sticky_witness :
    select_proxy cachedState exampleFlow (2/3) = (some proxyC, cachedState) :=
  (select_proxy_affinity_sticky cachedState exampleFlow 0 proxyC (by rfl) (by rfl)).1
    (by rfl) (2/3)

/-- C8: the claimed unloading on a failed reload fails on the code.  After a
successful load, reloading a parsed file without a proxies key leaves the
loaded flag set (the code never resets it on this path), and although the
candidates and the default are discarded, a still-matching session-affinity
entry keeps routing flows to the stale proxy, so select does not return none
until the next successful reload. -/
theorem load_missing_proxies_keeps_stale_routing :
    (load_configuration cachedState ⟨none⟩).config_loaded = true ∧
    (select_proxy (load_configuration cachedState ⟨none⟩) exampleFlow 0).1 = some proxyC := by
  constructor <;> rfl

/-- Counterexample for C9: a port rule with value zero never matches, even a
flow whose target port is zero, because the source tests the configured port
for Python truthiness before comparing. -/
theorem port_zero_rule_counterexample :
    ¬ (matches_rule portZeroFlow portZeroRule = true ↔ portZeroFlow.port = some 0) := by
  decide

/-- C9 amended: a Port rule with value n at least 1 matches exactly the flows
whose target port equals n; a Port rule with value 0 or a missing value never
matches; and a flow with the relevant attribute missing yields false for port
and host-pattern rules alike, never an error (the matcher is a total boolean
function). -/
theorem port_rule_matching_amended (f : Flow) :
    (∀ rule : ProxyRule, rule.type = "port" →
      (∀ n, 1 ≤ n → rule.port = some n → (matches_rule f rule = true ↔ f.port = some n)) ∧
      ((rule.port = some 0 ∨ rule.port = none) → matches_rule f rule = false) ∧
      (f.port = none → matches_rule f rule = false)) ∧
    (∀ rule : ProxyRule, rule.type = "host_pattern" → flow_host f = none →
      matches_rule f rule = false) := by
  constructor
  · intro rule hty
    refine ⟨?_, ?_, ?_⟩
    · intro n hn hport
      have hn0 : ¬ n = 0 := by omega
      simp [matches_rule, hty, hport, hn0]
    · rintro (hport | hport) <;> simp [matches_rule, hty, hport]
    · intro hfp
      rcases hrp : rule.port with _ | n
      · simp [matches_rule, hty, hrp]
      · rcases Nat.eq_zero_or_pos n with hn | hn
        · simp [matches_rule, hty, hrp, hn]
        · have hn0 : ¬ n = 0 := by omega
          simp [matches_rule, hty, hrp, hn0, hfp]
  · intro rule hty hfh
    rcases hp : rule.pattern with _ | p
    · simp [matches_rule, hty, hp]
    · by_cases hpe : p = ""
      · simp [matches_rule, hty, hp, hpe]
      · simp [matches_rule, hty, hp, hpe, hfh]

/-- Witness for C9: the 443 port rule against the example flow. -/
theorem port_rule_matching_amended_witness :
    matches_rule exampleFlow port443Rule = true ↔ exampleFlow.port = some 443 :=
  (((port_rule_matching_amended exampleFlow).1 port443Rule (by rfl)).1) 443 (by omega) (by rfl)

end MultiUpstream
